import Mathlib

/-!
Verification of the WebRTC signaling server `bioscopeai-vision-streamer`.

This file gives a shallow embedding of the signaling core of the repository:

* `app/schemas/signaling.py` — the six pydantic message models and their
  `model_dump` serialization;
* `app/webrtc/session.py` — `WebRTCSession`: ICE server configuration,
  candidate-line parsing, the message handlers, the receive loop `run`,
  and `_cleanup`;
* `app/webrtc/rtc_manager.py` — the process-wide registry of peer connections.

JSON values are modeled by the inductive `JVal` (floats are omitted: the
signaling protocol carries only strings, integers, null, booleans, arrays and
objects).  Python exception classes that matter to the control flow are modeled
by `PyExc`; pydantic's `ValidationError` is a subclass of `ValueError` in both
pydantic major versions, which the model records in `caughtByRun`.  Stateful
code is modeled by explicit state passing over `SessionState`, with an event
trace (`Ev`) recording the externally observable actions (descriptions set on
the peer connection, frames written to the WebSocket, candidates added, ...).
External nondeterminism (whether a WebSocket send succeeds, which SDP the
library produces for the answer, whether ICE gathering finishes within the
timeout) is supplied by an `Env` record.
-/

namespace VisionStreamer

/-- A JSON value as produced by `json.loads` (floats omitted; the signaling
protocol never carries them).  Objects are association lists with distinct
keys, as Python dicts decoded from JSON. -/
inductive JVal where
  | jnull
  | jbool (b : Bool)
  | jint (n : Int)
  | jstr (s : String)
  | jarr (xs : List JVal)
  | jobj (fields : List (String × JVal))

/-- Look up a key in a decoded JSON object (first binding; keys are distinct). -/
def lookupField (fields : List (String × JVal)) (key : String) : Option JVal :=
  (fields.find? (fun p => p.1 = key)).map (fun p => p.2)

/-- Python `dict.get(key)`: the value, or `None` when the key is absent. -/
def jGet (fields : List (String × JVal)) (key : String) : JVal :=
  (lookupField fields key).getD JVal.jnull

/-- Python truthiness of a JSON-decoded value: `None`, `False`, `0`, `""`,
`[]` and `{}` are falsy. -/
def pyTruthy : JVal → Bool
  | JVal.jnull => false
  | JVal.jbool b => b
  | JVal.jint n => n != 0
  | JVal.jstr s => s != ""
  | JVal.jarr xs => !xs.isEmpty
  | JVal.jobj fs => !fs.isEmpty

/-- Python `a or b` on decoded values: `a` when truthy, else `b`. -/
def pyOr (a b : JVal) : JVal :=
  if pyTruthy a then a else b

/-- Inject an optional Python string into the value domain (`None` ↦ null). -/
def optStrToJ : Option String → JVal
  | none => JVal.jnull
  | some s => JVal.jstr s

/-- Inject an optional Python int into the value domain (`None` ↦ null). -/
def optIntToJ : Option Int → JVal
  | none => JVal.jnull
  | some n => JVal.jint n

/-- Whether a JSON value is an object (a Python dict).  `_handle_message`
calls `.get` on the decoded value, which raises `AttributeError` on any
non-dict. -/
def isJObj : JVal → Bool
  | JVal.jobj _ => true
  | _ => false

/-- The Python exception classes relevant to the session's control flow.
`validationError` stands for `pydantic.ValidationError`, which is a subclass
of `ValueError`. -/
inductive PyExc where
  | osError
  | valueError
  | validationError
  | attributeError
  | otherError (name : String)
deriving Repr, DecidableEq

/-- Whether `except (OSError, ValueError)` in `WebRTCSession.run` catches the
exception.  `pydantic.ValidationError` subclasses `ValueError`, so it is
caught. -/
def caughtByRun : PyExc → Bool
  | PyExc.osError => true
  | PyExc.valueError => true
  | PyExc.validationError => true
  | _ => false

/-! ### Tokenizers and numeric conversion

Python `str.split()` (no argument) splits on runs of whitespace and drops
empty tokens; `str.split(sep)` splits at every occurrence of `sep` and keeps
empty tokens (so `"".split(",") == [""]`).  Both are modeled by structural
recursion over the character list so that they evaluate in the kernel. -/

/-- Worker for `pySplitWs`: `acc` holds the current token reversed. -/
def wsTokens : List Char → List Char → List String
  | [], acc => if acc.isEmpty then [] else [String.mk acc.reverse]
  | c :: cs, acc =>
    if c.isWhitespace then
      if acc.isEmpty then wsTokens cs []
      else String.mk acc.reverse :: wsTokens cs []
    else wsTokens cs (c :: acc)

/-- Python `s.split()` — whitespace split, empty tokens dropped. -/
def pySplitWs (s : String) : List String :=
  wsTokens s.data []

/-- Worker for `pySplitOn`: `acc` holds the current token reversed. -/
def sepTokens (sep : Char) : List Char → List Char → List String
  | [], acc => [String.mk acc.reverse]
  | c :: cs, acc =>
    if c = sep then String.mk acc.reverse :: sepTokens sep cs []
    else sepTokens sep cs (c :: acc)

/-- Python `s.split(sep)` for a one-character separator — empty tokens kept,
so the result is never the empty list (`"".split(",") == [""]`). -/
def pySplitOn (s : String) (sep : Char) : List String :=
  sepTokens sep s.data []

/-- Digit-accumulating worker for `pyInt`; fails on a non-digit. -/
def digitsValAux : List Char → Nat → Option Nat
  | [], acc => some acc
  | c :: cs, acc =>
    if c.isDigit then digitsValAux cs (acc * 10 + (c.toNat - 48)) else none

/-- A non-empty all-digit character list, as a number. -/
def digitsVal (cs : List Char) : Option Nat :=
  if cs.isEmpty then none else digitsValAux cs 0

/-- Strip leading and trailing whitespace. -/
def stripWs (cs : List Char) : List Char :=
  ((cs.dropWhile Char.isWhitespace).reverse.dropWhile Char.isWhitespace).reverse

/-- Python `int(s)` for a decimal string: surrounding whitespace is ignored,
an optional sign is allowed, and the body must be ASCII digits; anything else
raises `ValueError`, modeled as `none`.  (Numeric-literal underscores and
non-ASCII digits, which CPython also accepts, are not modeled.) -/
def pyInt (s : String) : Option Int :=
  match stripWs s.data with
  | '-' :: rest => (digitsVal rest).map (fun n => -(n : Int))
  | '+' :: rest => (digitsVal rest).map (fun n => (n : Int))
  | rest => (digitsVal rest).map (fun n => (n : Int))

/-! ### Signaling schemas (`app/schemas/signaling.py`)

Each pydantic model is a structure; `model_dump` is the dict it serializes
to, and `parse` is pydantic validation of a decoded JSON object
(`Model(**data)`): extra keys are ignored, missing keys take the declared
default or fail validation, `str` fields accept strings, `int | None` fields
accept integers, null, and — pydantic's lax mode — strings spelling an
integer. -/

/-- Required `str` field, or `str` field with a default when the key is
absent. -/
def pydStr (fields : List (String × JVal)) (key : String) (dflt : Option String) :
    Except PyExc String :=
  match lookupField fields key with
  | none =>
    match dflt with
    | some d => Except.ok d
    | none => Except.error PyExc.validationError
  | some (JVal.jstr s) => Except.ok s
  | some _ => Except.error PyExc.validationError

/-- `str | None = None` field. -/
def pydOptStr (fields : List (String × JVal)) (key : String) :
    Except PyExc (Option String) :=
  match lookupField fields key with
  | none => Except.ok none
  | some JVal.jnull => Except.ok none
  | some (JVal.jstr s) => Except.ok (some s)
  | some _ => Except.error PyExc.validationError

/-- `int | None = None` field; pydantic lax mode coerces an integer-spelling
string (for example `"0"`) to the integer. -/
def pydOptInt (fields : List (String × JVal)) (key : String) :
    Except PyExc (Option Int) :=
  match lookupField fields key with
  | none => Except.ok none
  | some JVal.jnull => Except.ok none
  | some (JVal.jint n) => Except.ok (some n)
  | some (JVal.jstr s) =>
    match pyInt s with
    | some n => Except.ok (some n)
    | none => Except.error PyExc.validationError
  | some _ => Except.error PyExc.validationError

/-- `OfferMessage`: WebRTC offer from client with SDP. -/
structure OfferMessage where
  type : String := "offer"
  sdp : String
deriving Repr, DecidableEq

/-- `OfferMessage.model_dump()`. -/
def OfferMessage.model_dump (m : OfferMessage) : List (String × JVal) :=
  [("type", JVal.jstr m.type), ("sdp", JVal.jstr m.sdp)]

/-- `OfferMessage(**data)`. -/
def OfferMessage.parse (fields : List (String × JVal)) : Except PyExc OfferMessage := do
  let t ← pydStr fields "type" (some "offer")
  let s ← pydStr fields "sdp" none
  Except.ok { type := t, sdp := s }

/-- `AnswerMessage`: WebRTC answer from server to client with SDP. -/
structure AnswerMessage where
  type : String := "answer"
  sdp : String
deriving Repr, DecidableEq

/-- `AnswerMessage.model_dump()`. -/
def AnswerMessage.model_dump (m : AnswerMessage) : List (String × JVal) :=
  [("type", JVal.jstr m.type), ("sdp", JVal.jstr m.sdp)]

/-- `AnswerMessage(**data)`. -/
def AnswerMessage.parse (fields : List (String × JVal)) : Except PyExc AnswerMessage := do
  let t ← pydStr fields "type" (some "answer")
  let s ← pydStr fields "sdp" none
  Except.ok { type := t, sdp := s }

/-- `IceCandidateMessage`: trickle-ICE candidate (`candidate = None` signals
end-of-candidates). -/
structure IceCandidateMessage where
  type : String := "ice-candidate"
  candidate : Option String := none
  sdp_mid : Option String := none
  sdp_m_line_index : Option Int := none
deriving Repr, DecidableEq

/-- `IceCandidateMessage.model_dump()`. -/
def IceCandidateMessage.model_dump (m : IceCandidateMessage) : List (String × JVal) :=
  [("type", JVal.jstr m.type), ("candidate", optStrToJ m.candidate),
   ("sdp_mid", optStrToJ m.sdp_mid), ("sdp_m_line_index", optIntToJ m.sdp_m_line_index)]

/-- `IceCandidateMessage(**data)`. -/
def IceCandidateMessage.parse (fields : List (String × JVal)) :
    Except PyExc IceCandidateMessage := do
  let t ← pydStr fields "type" (some "ice-candidate")
  let c ← pydOptStr fields "candidate"
  let m ← pydOptStr fields "sdp_mid"
  let i ← pydOptInt fields "sdp_m_line_index"
  Except.ok { type := t, candidate := c, sdp_mid := m, sdp_m_line_index := i }

/-- `ByeMessage`: client session termination signal. -/
structure ByeMessage where
  type : String := "bye"
deriving Repr, DecidableEq

/-- `ByeMessage.model_dump()`. -/
def ByeMessage.model_dump (m : ByeMessage) : List (String × JVal) :=
  [("type", JVal.jstr m.type)]

/-- `ByeMessage(**data)`. -/
def ByeMessage.parse (fields : List (String × JVal)) : Except PyExc ByeMessage := do
  let t ← pydStr fields "type" (some "bye")
  Except.ok { type := t }

/-- `PingMessage`: heartbeat ping from client. -/
structure PingMessage where
  type : String := "ping"
deriving Repr, DecidableEq

/-- `PingMessage.model_dump()`. -/
def PingMessage.model_dump (m : PingMessage) : List (String × JVal) :=
  [("type", JVal.jstr m.type)]

/-- `PingMessage(**data)`. -/
def PingMessage.parse (fields : List (String × JVal)) : Except PyExc PingMessage := do
  let t ← pydStr fields "type" (some "ping")
  Except.ok { type := t }

/-- `PongMessage`: heartbeat pong response from server. -/
structure PongMessage where
  type : String := "pong"
deriving Repr, DecidableEq

/-- `PongMessage.model_dump()`. -/
def PongMessage.model_dump (m : PongMessage) : List (String × JVal) :=
  [("type", JVal.jstr m.type)]

/-- `PongMessage(**data)`. -/
def PongMessage.parse (fields : List (String × JVal)) : Except PyExc PongMessage := do
  let t ← pydStr fields "type" (some "pong")
  Except.ok { type := t }

/-! ### ICE server configuration (`WebRTCSession.build_ice_servers`)

The Python function memoizes its result in a class attribute; the model below
is the underlying computation, a pure function of the process environment
(`os.getenv`).  Note that `os.getenv("TURN_URLS", "").split(",")` is `[""]`
when the variable is unset, and a non-empty list is always truthy in
Python. -/

/-- `aiortc.RTCIceServer`. -/
structure RTCIceServer where
  urls : List String
  username : Option String := none
  credential : Option String := none
deriving Repr, DecidableEq

/-- The process environment: `os.getenv(name)` returns `none` when unset. -/
abbrev OSEnv := String → Option String

/-- `os.getenv(key, dflt)`. -/
def getenv (env : OSEnv) (key dflt : String) : String :=
  (env key).getD dflt

/-- Python truthiness of `os.getenv(key)`: falsy iff unset or empty. -/
def pyTruthyOptStr : Option String → Bool
  | none => false
  | some s => s != ""

/-- Python truthiness of a list of strings: falsy iff empty. -/
def pyTruthyStrList : List String → Bool
  | [] => false
  | _ :: _ => true

/-- The STUN-only descriptor the prod path starts from. -/
def stunServer : RTCIceServer :=
  { urls := ["stun:stun.l.google.com:19302"] }

/-- `WebRTCSession.build_ice_servers`, without the process-level cache (the
cache memoizes exactly this value for the process lifetime). -/
def build_ice_servers (env : OSEnv) : List RTCIceServer :=
  let mode := getenv env "WEBRTC_ICE_MODE" "prod"
  if mode = "dev" then
    [{ urls := ["turn:turn:3478?transport=tcp"],
       username := some "dev", credential := some "devpass" }]
  else
    let servers := [stunServer]
    let turn_urls := pySplitOn (getenv env "TURN_URLS" "") ','
    let turn_user := env "TURN_USERNAME"
    let turn_pass := env "TURN_CREDENTIAL"
    if pyTruthyStrList turn_urls && pyTruthyOptStr turn_user && pyTruthyOptStr turn_pass then
      servers ++ [{ urls := turn_urls, username := turn_user, credential := turn_pass }]
    else
      servers

/-! ### Candidate-line parsing (`WebRTCSession._parse_ice_candidate`) -/

/-- `WebRTCSession.MIN_CANDIDATE_PARTS`. -/
def MIN_CANDIDATE_PARTS : Nat := 8

/-- `aiortc.RTCIceCandidate` as constructed by `_parse_ice_candidate`.  The
`sdpMid` / `sdpMLineIndex` arguments are passed through unexamined by the
Python code (it is dynamically typed), so they are kept as raw values. -/
structure RTCIceCandidate where
  foundation : String
  component : Int
  protocol : String
  priority : Int
  ip : String
  port : Int
  typ : String
  sdpMid : JVal
  sdpMLineIndex : JVal

/-- `WebRTCSession._parse_ice_candidate`: whitespace-split the line; with
fewer than `MIN_CANDIDATE_PARTS` tokens log and return `None`; otherwise
build the candidate inside a `try` whose `except (ValueError, IndexError)`
(from `int(...)` or from `parts[0].split(":")[1]` on a colon-free token)
logs and returns `None`.  The function is total: it never raises. -/
def parse_ice_candidate (candidate_str : String) (sdp_mid sdp_m_line_index : JVal) :
    Option RTCIceCandidate :=
  let parts := pySplitWs candidate_str
  if parts.length < MIN_CANDIDATE_PARTS then none
  else
    match (pySplitOn (parts.getD 0 "") ':').get? 1, pyInt (parts.getD 1 ""),
        pyInt (parts.getD 3 ""), pyInt (parts.getD 5 "") with
    | some fnd, some comp, some prio, some port =>
      some { foundation := fnd, component := comp, protocol := parts.getD 2 "",
             priority := prio, ip := parts.getD 4 "", port := port,
             typ := parts.getD 7 "", sdpMid := sdp_mid,
             sdpMLineIndex := sdp_m_line_index }
    | _, _, _, _ => none

/-! ### Registry (`app/webrtc/rtc_manager.py`)

Peer connections are identified by a numeric id; the registry is the set of
live ids, modeled as a duplicate-free list. -/

/-- `RTCManager.register`: add the peer connection to the set. -/
def RTCManager.register (pcs : List Nat) (pcId : Nat) : List Nat :=
  if pcId ∈ pcs then pcs else pcs ++ [pcId]

/-- The body of the coroutine `RTCManager.unregister`: if the peer connection
is in the set, close it and discard it.  Note that `_cleanup` calls
`rtc_manager.unregister(self.pc)` without `await`, so this body never runs
there. -/
def RTCManager.unregister (pcs : List Nat) (pcId : Nat) : List Nat :=
  if pcId ∈ pcs then pcs.erase pcId else pcs

/-! ### The session (`app/webrtc/session.py`, class `WebRTCSession`)

The session is modeled by explicit state passing.  Each operation returns the
next state together with a trace of externally observable events; a message
handler additionally returns the exception escaping it, if any.  ICE/answer
nondeterminism resolved by the aiortc library and the network is supplied by
`Env`. -/

/-- `aiortc.RTCSessionDescription`. -/
structure RTCSessionDescription where
  sdp : String
  typ : String
deriving Repr, DecidableEq

/-- The observable fields of an `aiortc.RTCPeerConnection`, plus its identity
for the registry. -/
structure PCState where
  pcId : Nat := 0
  remoteDescription : Option RTCSessionDescription := none
  localDescription : Option RTCSessionDescription := none
  iceConnectionState : String := "new"
  iceGatheringState : String := "new"
  connectionState : String := "new"
deriving Repr, DecidableEq

/-- The mutable attributes of a `WebRTCSession`.  `sendCount` numbers the
`websocket.send_text` calls so that `Env.sendResult` can decide each one's
outcome. -/
structure SessionState where
  pc : Option PCState := none
  closed : Bool := false
  cleanup_done : Bool := false
  ice_gathering_complete : Bool := false
  sendCount : Nat := 0
deriving Repr, DecidableEq

/-- External nondeterminism: the outcome of the n-th `send_text` call (`none`
is success), the SDP the library produces for `createAnswer`, and whether ICE
gathering completes within the 5-second bound of
`_wait_for_ice_gathering`. -/
structure Env where
  sendResult : Nat → Option PyExc
  answerSdp : String
  iceGatheringCompletes : Bool

/-- `aiortc` candidate object delivered to the `icecandidate` event handler
(non-null case); its attributes feed the outbound `IceCandidateMessage`. -/
structure OutboundCandidate where
  candidate : String
  sdpMid : Option String := none
  sdpMLineIndex : Option Int := none
deriving Repr, DecidableEq

/-- Externally observable actions of the session. -/
inductive Ev where
  | log (msg : String)
  | sent (payload : List (String × JVal))
  | setRemoteDescription (sdp typ : String)
  | createAnswer
  | setLocalDescription (sdp typ : String)
  | waitIce
  | parseCandidateCall (candidate : String) (sdp_mid sdp_m_line_index : JVal)
  | addIceCandidate (cand : RTCIceCandidate)
  | addIceCandidateEnd
  | closePC
  | closeWebSocket

/-- The payloads of the frames written to the WebSocket, in order. -/
def sentFrames (tr : List Ev) : List (List (String × JVal)) :=
  tr.filterMap fun e =>
    match e with
    | Ev.sent p => some p
    | _ => none

/-- Result of one message handler: next state, trace, escaping exception. -/
structure HandlerOut where
  st : SessionState
  trace : List Ev
  exc : Option PyExc := none

/-- `WebRTCSession._send_json`: `json.dumps` plus `send_text` inside a
catch-all `except Exception` that logs and sets the closed flag, so the
function never raises. -/
def send_json (env : Env) (st : SessionState) (payload : List (String × JVal)) :
    SessionState × List Ev :=
  match env.sendResult st.sendCount with
  | none =>
    ({ st with sendCount := st.sendCount + 1 }, [Ev.sent payload])
  | some _ =>
    ({ st with sendCount := st.sendCount + 1, closed := true },
     [Ev.log "Failed to send message over WebSocket"])

/-- The `icecandidate` event handler attached in `_attach_pc_event_handlers`:
`if event.candidate:` (an object is truthy, `None` is falsy) send one
ice-candidate message built from the candidate's attributes. -/
def on_icecandidate (env : Env) (st : SessionState) (event : Option OutboundCandidate) :
    SessionState × List Ev :=
  match event with
  | none => (st, [])
  | some c =>
    send_json env st
      (IceCandidateMessage.model_dump
        { candidate := some c.candidate, sdp_mid := c.sdpMid,
          sdp_m_line_index := c.sdpMLineIndex })

/-- `WebRTCSession._wait_for_ice_gathering`: return immediately without a
peer connection or when gathering is already complete; otherwise block on the
latch for at most `ICE_GATHERING_TIMEOUT` seconds.  `Env.iceGatheringCompletes`
says whether the `icegatheringstatechange` callback fires (setting the latch
and the state) within the bound; on timeout a warning is logged and the
session proceeds. -/
def wait_for_ice_gathering (env : Env) (st : SessionState) : SessionState × List Ev :=
  match st.pc with
  | none => (st, [Ev.waitIce])
  | some pc =>
    if pc.iceGatheringState = "complete" then (st, [Ev.waitIce])
    else if env.iceGatheringCompletes then
      ({ st with ice_gathering_complete := true,
                 pc := some { pc with iceGatheringState := "complete" } },
       [Ev.waitIce])
    else
      (st, [Ev.waitIce, Ev.log "ICE gathering timeout"])

/-- `WebRTCSession._handle_offer`: without a peer connection, log and return;
otherwise validate the offer (a pydantic failure escapes the handler), set
the remote description from it, create an answer and set it as local
description, wait for ICE gathering, and send one answer message carrying
`self.pc.localDescription.sdp`. -/
def handle_offer (env : Env) (st : SessionState) (data : List (String × JVal)) :
    HandlerOut :=
  match st.pc with
  | none => ⟨st, [Ev.log "No PeerConnection in session when handling offer"], none⟩
  | some pc =>
    match OfferMessage.parse data with
    | Except.error e => ⟨st, [], some e⟩
    | Except.ok offer =>
      let pc1 := { pc with remoteDescription := some ⟨offer.sdp, offer.type⟩ }
      let answer : RTCSessionDescription := ⟨env.answerSdp, "answer"⟩
      let pc2 := { pc1 with localDescription := some answer }
      let st1 := { st with pc := some pc2 }
      let stepTrace := [Ev.setRemoteDescription offer.sdp offer.type, Ev.createAnswer,
                        Ev.setLocalDescription answer.sdp answer.typ]
      let (st2, waitTrace) := wait_for_ice_gathering env st1
      match st2.pc with
      | none => ⟨st2, stepTrace ++ waitTrace, some PyExc.attributeError⟩
      | some pc3 =>
        match pc3.localDescription with
        | none => ⟨st2, stepTrace ++ waitTrace, some PyExc.attributeError⟩
        | some ld =>
          let (st3, sendTrace) :=
            send_json env st2 (AnswerMessage.model_dump { type := "answer", sdp := ld.sdp })
          ⟨st3, stepTrace ++ waitTrace ++ sendTrace ++ [Ev.log "WebRTC answer sent to client"],
           none⟩

/-- `ice_msg.<field> or data.get(camelKey) or data.get(snakeKey)` — the
fallback chain as the source writes it: parsed value first, then the
camelCase key, then the snake_case key, each skipped when falsy. -/
def codeOrderMerge (parsed : JVal) (data : List (String × JVal))
    (snakeKey camelKey : String) : JVal :=
  pyOr parsed (pyOr (jGet data camelKey) (jGet data snakeKey))

/-- Modelled from the spec's words (not from the source), for comparison with
`codeOrderMerge`: the fallback order the specification states — the parsed
message value first, then the canonical snake_case key, then the camelCase
key. -/
def specOrderMerge (parsed : JVal) (data : List (String × JVal))
    (snakeKey camelKey : String) : JVal :=
  pyOr parsed (pyOr (jGet data snakeKey) (jGet data camelKey))

/-- `ice_msg.candidate is None` aside, whether the peer connection state
makes `_handle_ice_candidate` ignore the message. -/
def iceConnDead (pc : PCState) : Bool :=
  pc.iceConnectionState == "closed" || pc.iceConnectionState == "failed" ||
    pc.iceConnectionState == "disconnected"

/-- `WebRTCSession._handle_ice_candidate`: ignore without a peer connection
or when it is closed/failed/disconnected; validate the message (a pydantic
failure escapes); a null candidate is forwarded as end-of-candidates; else
merge the `sdp_mid` / `sdp_m_line_index` fallbacks, parse the candidate line
(`parseCandidateCall` records the arguments of that call), drop it when the
parse fails, and add it to the peer connection (add errors are caught). -/
def handle_ice_candidate (_env : Env) (st : SessionState) (data : List (String × JVal)) :
    HandlerOut :=
  match st.pc with
  | none => ⟨st, [Ev.log "No PeerConnection when handling ICE candidate"], none⟩
  | some pc =>
    if iceConnDead pc then
      ⟨st, [Ev.log "Ignoring ICE candidate"], none⟩
    else
      match IceCandidateMessage.parse data with
      | Except.error e => ⟨st, [], some e⟩
      | Except.ok msg =>
        match msg.candidate with
        | none => ⟨st, [Ev.addIceCandidateEnd], none⟩
        | some candStr =>
          let sdp_mid := codeOrderMerge (optStrToJ msg.sdp_mid) data "sdp_mid" "sdpMid"
          let sdp_m_line_index :=
            codeOrderMerge (optIntToJ msg.sdp_m_line_index) data
              "sdp_m_line_index" "sdpMLineIndex"
          let callEv := Ev.parseCandidateCall candStr sdp_mid sdp_m_line_index
          match parse_ice_candidate candStr sdp_mid sdp_m_line_index with
          | none => ⟨st, [callEv, Ev.log "Invalid candidate format"], none⟩
          | some cand => ⟨st, [callEv, Ev.addIceCandidate cand], none⟩

/-- `WebRTCSession._handle_bye`: validate, log, set the closed flag. -/
def handle_bye (_env : Env) (st : SessionState) (data : List (String × JVal)) :
    HandlerOut :=
  match ByeMessage.parse data with
  | Except.error e => ⟨st, [], some e⟩
  | Except.ok _ =>
    ⟨{ st with closed := true }, [Ev.log "Received bye from client, closing session"], none⟩

/-- `WebRTCSession._handle_ping`: validate and reply with a pong. -/
def handle_ping (env : Env) (st : SessionState) (data : List (String × JVal)) :
    HandlerOut :=
  match PingMessage.parse data with
  | Except.error e => ⟨st, [], some e⟩
  | Except.ok _ =>
    let (st1, tr) := send_json env st (PongMessage.model_dump {})
    ⟨st1, tr, none⟩

/-- `WebRTCSession._handle_message`: an undecodable frame (`none`) is logged
and dropped; `data.get("type")` raises `AttributeError` on a non-dict value;
the dispatch table routes the four known string tags and logs anything
else. -/
def handle_message (env : Env) (st : SessionState) (frame : Option JVal) : HandlerOut :=
  match frame with
  | none => ⟨st, [Ev.log "Received non-JSON message"], none⟩
  | some (JVal.jobj fields) =>
    match jGet fields "type" with
    | JVal.jstr "offer" => handle_offer env st fields
    | JVal.jstr "ice-candidate" => handle_ice_candidate env st fields
    | JVal.jstr "bye" => handle_bye env st fields
    | JVal.jstr "ping" => handle_ping env st fields
    | _ => ⟨st, [Ev.log "Unsupported signaling message type"], none⟩
  | some _ => ⟨st, [], some PyExc.attributeError⟩

/-- The `while not self._closed` receive loop of `WebRTCSession.run` over a
finite stream of inbound frames (`none` = a frame that is not valid JSON).
The loop stops when the closed flag is set, when a handler raises, or when
the modeled stream ends. -/
def runLoop (env : Env) : SessionState → List (Option JVal) → HandlerOut
  | st, [] => ⟨st, [], none⟩
  | st, f :: rest =>
    if st.closed then ⟨st, [], none⟩
    else
      let r := handle_message env st f
      match r.exc with
      | some e => ⟨r.st, r.trace, some e⟩
      | none =>
        let r2 := runLoop env r.st rest
        ⟨r2.st, r.trace ++ r2.trace, r2.exc⟩

/-- Result of `_cleanup`: next session state, registry contents, trace. -/
structure CleanupOut where
  st : SessionState
  registry : List Nat
  trace : List Ev

/-- `WebRTCSession._cleanup`: return if already done, else mark done; close
the peer connection unless its connection state is already closed/failed;
then the source calls `rtc_manager.unregister(self.pc)` WITHOUT `await` —
the coroutine object is created but its body never runs, so the registry is
not modified here; finally close the WebSocket. -/
def cleanup (st : SessionState) (pcs : List Nat) : CleanupOut :=
  if st.cleanup_done then ⟨st, pcs, []⟩
  else
    let st1 := { st with cleanup_done := true }
    match st1.pc with
    | none => ⟨st1, pcs, [Ev.log "Cleaning up WebRTC session", Ev.closeWebSocket]⟩
    | some pc =>
      if pc.connectionState = "closed" ∨ pc.connectionState = "failed" then
        ⟨st1, pcs, [Ev.log "Cleaning up WebRTC session", Ev.closeWebSocket]⟩
      else
        ⟨{ st1 with pc := some { pc with connectionState := "closed" } }, pcs,
         [Ev.log "Cleaning up WebRTC session", Ev.closePC, Ev.closeWebSocket]⟩

/-- Outcome of `WebRTCSession.run`: final state, registry, trace, and the
exception propagating to the caller, if any. -/
structure RunResult where
  final : SessionState
  registry : List Nat
  trace : List Ev
  escaped : Option PyExc

/-- The `try/except (OSError, ValueError)/finally` of `WebRTCSession.run`
around the receive loop: a caught exception is logged and suppressed, an
uncaught one propagates; either way `_cleanup` runs in the `finally`
block. -/
def runFrom (env : Env) (st : SessionState) (pcs : List Nat)
    (frames : List (Option JVal)) : RunResult :=
  let r := runLoop env st frames
  match r.exc with
  | none =>
    let c := cleanup r.st pcs
    ⟨c.st, c.registry, r.trace ++ c.trace, none⟩
  | some e =>
    if caughtByRun e then
      let c := cleanup r.st pcs
      ⟨c.st, c.registry, r.trace ++ [Ev.log "Error in WebRTCSession.run"] ++ c.trace, none⟩
    else
      let c := cleanup r.st pcs
      ⟨c.st, c.registry, r.trace ++ c.trace, some e⟩

/-- `WebRTCSession.run`: accept the WebSocket, create the peer connection
with the cached ICE configuration, register it with the process-wide
registry, attach the event handlers and the outbound track, then run the
receive loop with the `except`/`finally` policy of `runFrom`. -/
def runSession (env : Env) (pcs : List Nat) (pcId : Nat)
    (frames : List (Option JVal)) : RunResult :=
  let st0 : SessionState := { pc := some { pcId := pcId } }
  runFrom env st0 (RTCManager.register pcs pcId) frames

/-! ### Concrete inputs used by witnesses and counterexamples -/

/-- An environment where every send succeeds, the library answers with SDP
`"sdpANSWER"`, and ICE gathering completes within the bound. -/
def envOk : Env :=
  { sendResult := fun _ => none, answerSdp := "sdpANSWER", iceGatheringCompletes := true }

/-- An environment whose first `send_text` call fails with `OSError`. -/
def envSendFails : Env :=
  { sendResult := fun n => if n = 0 then some PyExc.osError else none,
    answerSdp := "sdpANSWER", iceGatheringCompletes := true }

/-- A fresh peer connection (all states `"new"`). -/
def pcFresh : PCState := {}

/-- A session that has accepted the WebSocket and created its peer
connection, as at the top of the receive loop. -/
def stReady : SessionState := { pc := some pcFresh }

/-- An offer frame whose payload violates the schema: `sdp` is missing. -/
def offerFrameNoSdp : Option JVal :=
  some (JVal.jobj [("type", JVal.jstr "offer")])

/-- A well-formed offer frame. -/
def offerFrameOk : Option JVal :=
  some (JVal.jobj [("type", JVal.jstr "offer"), ("sdp", JVal.jstr "v=0")])

/-- A ping frame. -/
def pingFrame : Option JVal :=
  some (JVal.jobj [("type", JVal.jstr "ping")])

/-- A bye frame. -/
def byeFrame : Option JVal :=
  some (JVal.jobj [("type", JVal.jstr "bye")])

/-- The arguments of the `_parse_ice_candidate` calls recorded in a trace. -/
def parseCalls (tr : List Ev) : List (String × JVal × JVal) :=
  tr.filterMap fun e =>
    match e with
    | Ev.parseCandidateCall s m i => some (s, m, i)
    | _ => none

/-- An ice-candidate message where the canonical `sdp_m_line_index` key holds
the string `"0"` (which pydantic coerces to the integer `0`, a falsy value)
while the camelCase `sdpMLineIndex` key holds `7`. -/
def dataC5 : List (String × JVal) :=
  [("type", JVal.jstr "ice-candidate"),
   ("candidate", JVal.jstr "candidate:1 1 udp 2130706431 10.0.0.1 54400 typ host"),
   ("sdp_m_line_index", JVal.jstr "0"),
   ("sdpMLineIndex", JVal.jint 7)]

/-- A prod-mode process environment with TURN username and credential set but
`TURN_URLS` absent. -/
def envC4 : OSEnv := fun k =>
  if k = "TURN_USERNAME" then some "user"
  else if k = "TURN_CREDENTIAL" then some "pass"
  else none

/-! ### Helper lemmas -/

/-- `str.split(sep)` never yields the empty list. -/
theorem sepTokens_ne_nil (sep : Char) (cs acc : List Char) :
    sepTokens sep cs acc ≠ [] := by
  induction cs generalizing acc with
  | nil => simp [sepTokens]
  | cons c cs ih =>
    unfold sepTokens
    by_cases h : c = sep
    · simp [h]
    · simpa [h] using ih (c :: acc)

/-- A split-on-separator list is always truthy in Python. -/
theorem pyTruthyStrList_pySplitOn (s : String) (sep : Char) :
    pyTruthyStrList (pySplitOn s sep) = true := by
  unfold pySplitOn
  rcases h : sepTokens sep s.data [] with _ | ⟨t, ts⟩
  · exact absurd h (sepTokens_ne_nil sep s.data [])
  · rfl

/-- A handler exception stops the receive loop at that frame. -/
theorem runLoop_cons_exc (env : Env) (st : SessionState) (f : Option JVal)
    (rest : List (Option JVal)) (st1 : SessionState) (tr : List Ev) (e : PyExc)
    (hclosed : st.closed = false)
    (hmsg : handle_message env st f = ⟨st1, tr, some e⟩) :
    runLoop env st (f :: rest) = ⟨st1, tr, some e⟩ := by
  unfold runLoop
  rw [if_neg (by simp [hclosed]), hmsg]

/-- After `_cleanup`, the cleanup-done flag is set. -/
theorem cleanup_done_cleanup (st : SessionState) (pcs : List Nat) :
    (cleanup st pcs).st.cleanup_done = true := by
  unfold cleanup
  by_cases h : st.cleanup_done
  · simp [h]
  · rcases hpc : st.pc with _ | pc
    · simp [h, hpc]
    · by_cases hcs : pc.connectionState = "closed" ∨ pc.connectionState = "failed" <;>
        simp [h, hpc, hcs]

/-! ### Claim theorems -/

/-- C7: `_parse_ice_candidate` never throws (it is total by construction,
mirroring the `try/except (ValueError, IndexError)`): every candidate string
that whitespace-splits into fewer than 8 tokens yields `None`, and whenever
the component (token 1), priority (token 3), or port (token 5) fails integer
conversion, the failure is caught and `None` is returned. -/
theorem c7_parse_candidate_total (s : String) (mid idx : JVal) :
    ((pySplitWs s).length < MIN_CANDIDATE_PARTS → parse_ice_candidate s mid idx = none) ∧
    ((pyInt ((pySplitWs s).getD 1 "") = none ∨ pyInt ((pySplitWs s).getD 3 "") = none ∨
        pyInt ((pySplitWs s).getD 5 "") = none) →
      parse_ice_candidate s mid idx = none) := by
  constructor
  · intro h
    simp [parse_ice_candidate, h]
  · intro h
    unfold parse_ice_candidate
    by_cases hlen : (pySplitWs s).length < MIN_CANDIDATE_PARTS
    · simp [hlen]
    · rcases h with h | h | h <;> simp [hlen, h] <;> split <;> simp_all

/-- C7 witness: a concrete 7-token candidate line is below the 8-token
minimum and is dropped with `None`. -/
theorem c7_witness :
    (pySplitWs "candidate:1 1 udp 2130706431 10.0.0.1 54400 typ").length <
      MIN_CANDIDATE_PARTS ∧
    parse_ice_candidate "candidate:1 1 udp 2130706431 10.0.0.1 54400 typ"
      JVal.jnull JVal.jnull = none :=
  ⟨by decide,
   (c7_parse_candidate_total "candidate:1 1 udp 2130706431 10.0.0.1 54400 typ"
      JVal.jnull JVal.jnull).1 (by decide)⟩

/-- C8: for every variant of the six signaling messages, pydantic validation
of its `model_dump` serialization yields the message back:
`Parse(Serialize(m)) = m`. -/
theorem c8_roundtrip :
    (∀ m : OfferMessage, OfferMessage.parse m.model_dump = Except.ok m) ∧
    (∀ m : AnswerMessage, AnswerMessage.parse m.model_dump = Except.ok m) ∧
    (∀ m : IceCandidateMessage, IceCandidateMessage.parse m.model_dump = Except.ok m) ∧
    (∀ m : ByeMessage, ByeMessage.parse m.model_dump = Except.ok m) ∧
    (∀ m : PingMessage, PingMessage.parse m.model_dump = Except.ok m) ∧
    (∀ m : PongMessage, PongMessage.parse m.model_dump = Except.ok m) := by
  refine ⟨fun m => ?_, fun m => ?_, fun m => ?_, fun m => ?_, fun m => ?_, fun m => ?_⟩
  · cases m; rfl
  · cases m; rfl
  · rcases m with ⟨t, c, mid, idx⟩
    cases c <;> cases mid <;> cases idx <;> rfl
  · cases m; rfl
  · cases m; rfl
  · cases m; rfl

/-- C2 (code bug, evaluated at the failing input): a session that handles a
single bye frame runs `_cleanup`, yet its peer connection is still a member
of the Registry afterwards, because `_cleanup` calls the coroutine
`rtc_manager.unregister(self.pc)` without `await`, so its body never runs.
Had the body run (`RTCManager.unregister`), the peer connection would have
been removed. -/
theorem c2_cleanup_registry :
    (runSession envOk [] 0 [byeFrame]).final.cleanup_done = true ∧
    (runSession envOk [] 0 [byeFrame]).registry = [0] ∧
    0 ∈ (runSession envOk [] 0 [byeFrame]).registry ∧
    RTCManager.unregister (runSession envOk [] 0 [byeFrame]).registry 0 = [] := by
  refine ⟨rfl, rfl, ?_, ?_⟩ <;> decide

/-- C1 counterexample: a stream consisting of a schema-violating offer (no
`sdp` field) followed by a ping.  The pydantic `ValidationError` (a
`ValueError`) escapes `_handle_offer` and is caught by the `except` around
the whole receive loop, so the loop exits and cleans up: the ping is never
handled and no pong is sent — although a ping alone is answered with exactly
one pong.  The receive loop does not continue past a schema violation,
contrary to the claim. -/
theorem c1_counterexample :
    sentFrames (runFrom envOk stReady [] [offerFrameNoSdp, pingFrame]).trace = [] ∧
    (runFrom envOk stReady [] [offerFrameNoSdp, pingFrame]).final.cleanup_done = true ∧
    (runFrom envOk stReady [] [offerFrameNoSdp, pingFrame]).escaped = none ∧
    sentFrames (runFrom envOk stReady [] [pingFrame]).trace = [PongMessage.model_dump {}] :=
  ⟨rfl, rfl, rfl, rfl⟩

/-- C1 (amended): an exception escaping a message handler ends the receive
loop at that frame.  When it is an `OSError`/`ValueError` — in particular the
pydantic `ValidationError` raised by a schema violation in a known type — the
loop's `except` logs it, the frame is dropped, and the session terminates
through `_cleanup` without crashing the process; any other exception
propagates out of `run`, with `_cleanup` still executed by the `finally`
block.  In neither case does the loop continue with later frames. -/
theorem c1_amended (env : Env) (st : SessionState) (pcs : List Nat)
    (f : Option JVal) (rest : List (Option JVal)) (st1 : SessionState)
    (tr : List Ev) (e : PyExc)
    (hclosed : st.closed = false)
    (hmsg : handle_message env st f = ⟨st1, tr, some e⟩) :
    (caughtByRun e = true →
      runFrom env st pcs (f :: rest) =
        ⟨(cleanup st1 pcs).st, (cleanup st1 pcs).registry,
         tr ++ [Ev.log "Error in WebRTCSession.run"] ++ (cleanup st1 pcs).trace, none⟩) ∧
    (caughtByRun e = false →
      runFrom env st pcs (f :: rest) =
        ⟨(cleanup st1 pcs).st, (cleanup st1 pcs).registry,
         tr ++ (cleanup st1 pcs).trace, some e⟩) ∧
    (cleanup st1 pcs).st.cleanup_done = true := by
  have hloop := runLoop_cons_exc env st f rest st1 tr e hclosed hmsg
  refine ⟨fun hc => ?_, fun hc => ?_, cleanup_done_cleanup st1 pcs⟩
  · unfold runFrom
    rw [hloop]
    simp [hc]
  · unfold runFrom
    rw [hloop]
    simp [hc]

/-- C1 amended witness: the schema-violating offer followed by a ping, run
concretely — the `ValidationError` is caught, the ping is not processed, and
cleanup runs. -/
theorem c1_amended_witness :
    runFrom envOk stReady [] [offerFrameNoSdp, pingFrame] =
      ⟨(cleanup stReady []).st, (cleanup stReady []).registry,
       [] ++ [Ev.log "Error in WebRTCSession.run"] ++ (cleanup stReady []).trace, none⟩ ∧
    (cleanup stReady []).st.cleanup_done = true := by
  have h := c1_amended envOk stReady [] offerFrameNoSdp [pingFrame] stReady []
    PyExc.validationError rfl rfl
  exact ⟨h.1 rfl, h.2.2⟩

/-- C4 counterexample: in prod mode with `TURN_USERNAME` and
`TURN_CREDENTIAL` set but `TURN_URLS` absent from the environment, the code
still appends a TURN descriptor (with the url list `[""]`, because
`"".split(",") == [""]` is truthy), contradicting the claim that a TURN
descriptor is appended only when all three variables are present. -/
theorem c4_counterexample :
    envC4 "TURN_URLS" = none ∧
    build_ice_servers envC4 =
      [stunServer, { urls := [""], username := some "user", credential := some "pass" }] := by
  exact ⟨rfl, by decide⟩

/-- C4 (amended): on the prod path (any mode other than `"dev"`), the first
ICE server is the public STUN server `stun:stun.l.google.com:19302`, and a
TURN descriptor is appended if and only if `TURN_USERNAME` and
`TURN_CREDENTIAL` are both present and non-empty; `TURN_URLS` plays no part
in the decision, because `os.getenv("TURN_URLS", "").split(",")` is a
non-empty (hence truthy) list even when the variable is unset.  When either
credential is missing, a warning is logged and the STUN-only list is
returned. -/
theorem c4_amended (env : OSEnv)
    (hmode : getenv env "WEBRTC_ICE_MODE" "prod" ≠ "dev") :
    (build_ice_servers env).head? = some stunServer ∧
    (pyTruthyOptStr (env "TURN_USERNAME") = true →
      pyTruthyOptStr (env "TURN_CREDENTIAL") = true →
      build_ice_servers env =
        [stunServer,
         { urls := pySplitOn (getenv env "TURN_URLS" "") ',',
           username := env "TURN_USERNAME", credential := env "TURN_CREDENTIAL" }]) ∧
    ((pyTruthyOptStr (env "TURN_USERNAME") = false ∨
        pyTruthyOptStr (env "TURN_CREDENTIAL") = false) →
      build_ice_servers env = [stunServer]) := by
  have hurls := pyTruthyStrList_pySplitOn (getenv env "TURN_URLS" "") ','
  unfold build_ice_servers
  rw [if_neg hmode]
  refine ⟨?_, fun h1 h2 => ?_, fun h => ?_⟩
  · cases hb : pyTruthyOptStr (env "TURN_USERNAME") <;>
      cases hc : pyTruthyOptStr (env "TURN_CREDENTIAL") <;>
      simp [hurls, hb, hc]
  · simp [hurls, h1, h2]
  · rcases h with h | h <;> simp [h]

/-- C4 amended witness: the concrete environment of the counterexample has
non-empty TURN username and credential, so the prod list is STUN followed by
the TURN descriptor. -/
theorem c4_amended_witness :
    build_ice_servers envC4 =
      [stunServer,
       { urls := pySplitOn (getenv envC4 "TURN_URLS" "") ',',
         username := envC4 "TURN_USERNAME", credential := envC4 "TURN_CREDENTIAL" }] :=
  (c4_amended envC4 (by decide)).2.1 rfl rfl

/-- C9: a frame that decodes to a non-object JSON value makes
`_handle_message` raise `AttributeError` at `data.get("type")`;
`AttributeError` is not among the `(OSError, ValueError)` classes caught by
the receive loop, so it escapes `run` — `_cleanup` still executes via the
`finally` block, and the exception propagates to the caller. -/
theorem c9_nonobject_frame (env : Env) (st : SessionState) (pcs : List Nat)
    (v : JVal) (rest : List (Option JVal))
    (hobj : isJObj v = false) (hclosed : st.closed = false) :
    handle_message env st (some v) = ⟨st, [], some PyExc.attributeError⟩ ∧
    caughtByRun PyExc.attributeError = false ∧
    runFrom env st pcs (some v :: rest) =
      ⟨(cleanup st pcs).st, (cleanup st pcs).registry, (cleanup st pcs).trace,
       some PyExc.attributeError⟩ ∧
    (cleanup st pcs).st.cleanup_done = true := by
  have h1 : handle_message env st (some v) = ⟨st, [], some PyExc.attributeError⟩ := by
    cases v <;> first
      | rfl
      | exact absurd hobj (by simp [isJObj])
  have hloop := runLoop_cons_exc env st (some v) rest st [] PyExc.attributeError hclosed h1
  refine ⟨h1, ?_, ?_, cleanup_done_cleanup st pcs⟩
  · rfl
  · unfold runFrom
    rw [hloop]
    simp [caughtByRun]

/-- C9 witness: the JSON array `[]` as an inbound frame, concretely. -/
theorem c9_witness :
    handle_message envOk stReady (some (JVal.jarr [])) =
      ⟨stReady, [], some PyExc.attributeError⟩ ∧
    runFrom envOk stReady [] [some (JVal.jarr [])] =
      ⟨(cleanup stReady []).st, (cleanup stReady []).registry, (cleanup stReady []).trace,
       some PyExc.attributeError⟩ := by
  have h := c9_nonobject_frame envOk stReady [] (JVal.jarr []) [] rfl rfl
  exact ⟨h.1, h.2.2.1⟩

/-- C10: `_send_json` never raises (it is total by construction, mirroring
the catch-all `except Exception`): a failing send is logged and sets the
closed flag instead of raising, so the handler that triggered it — here the
ping handler — still returns without an exception, and the receive loop exits
at its next iteration boundary, processing no further frames. -/
theorem c10_send_json_never_raises (env : Env) (st : SessionState)
    (payload : List (String × JVal)) :
    (∀ e, env.sendResult st.sendCount = some e →
      (send_json env st payload).1.closed = true ∧
      (send_json env st payload).2 = [Ev.log "Failed to send message over WebSocket"]) ∧
    (∀ data m, PingMessage.parse data = Except.ok m →
      (handle_ping env st data).exc = none) ∧
    (∀ st0 f rest st1 tr, st0.closed = false →
      handle_message env st0 f = ⟨st1, tr, none⟩ → st1.closed = true →
      runLoop env st0 (f :: rest) = ⟨st1, tr, none⟩) := by
  refine ⟨fun e he => ?_, fun data m hm => ?_, fun st0 f rest st1 tr h0 hmsg h1 => ?_⟩
  · simp [send_json, he]
  · unfold handle_ping
    rw [hm]
  · unfold runLoop
    rw [if_neg (by simp [h0]), hmsg]
    have h2 : runLoop env st1 rest = ⟨st1, [], none⟩ := by
      cases rest with
      | nil => rfl
      | cons g gs =>
        unfold runLoop
        rw [if_pos (by simp [h1])]
    simp [h2]

/-- C10 witness: with the first send failing, a ping frame sets the closed
flag through `_send_json` (no exception) and a following bye frame is never
processed. -/
theorem c10_witness :
    (send_json envSendFails stReady (PongMessage.model_dump {})).1.closed = true ∧
    (handle_ping envSendFails stReady [("type", JVal.jstr "ping")]).exc = none ∧
    runLoop envSendFails stReady [pingFrame, byeFrame] =
      ⟨{ pc := some pcFresh, closed := true, sendCount := 1 },
       [Ev.log "Failed to send message over WebSocket"], none⟩ := by
  have h := c10_send_json_never_raises envSendFails stReady (PongMessage.model_dump {})
  exact ⟨(h.1 PyExc.osError rfl).1,
    h.2.1 [("type", JVal.jstr "ping")] { type := "ping" } rfl,
    h.2.2 stReady pingFrame [byeFrame]
      { pc := some pcFresh, closed := true, sendCount := 1 }
      [Ev.log "Failed to send message over WebSocket"] rfl rfl rfl⟩

/-- C3: for every handled offer with a peer connection present and a
validated payload, the handler raises nothing and its trace is exactly:
set the remote description from the offer's SDP, create an answer, set it as
local description, wait (bounded) for ICE gathering — possibly logging a
timeout — and then send exactly one answer frame carrying the resulting
local SDP; in particular the answer is sent only after both descriptions
have been set.  Without a peer connection, the handler only logs and nothing
is sent. -/
theorem c3_offer_answer (env : Env) (st : SessionState) (data : List (String × JVal)) :
    (st.pc = none →
      (handle_offer env st data).trace =
        [Ev.log "No PeerConnection in session when handling offer"] ∧
      sentFrames (handle_offer env st data).trace = []) ∧
    (∀ pc offer, st.pc = some pc → OfferMessage.parse data = Except.ok offer →
      env.sendResult st.sendCount = none →
      (handle_offer env st data).exc = none ∧
      (∃ wtr, (∀ e ∈ wtr, ∃ s, e = Ev.log s) ∧
        (handle_offer env st data).trace =
          [Ev.setRemoteDescription offer.sdp offer.type, Ev.createAnswer,
           Ev.setLocalDescription env.answerSdp "answer", Ev.waitIce] ++ wtr ++
          [Ev.sent (AnswerMessage.model_dump { type := "answer", sdp := env.answerSdp }),
           Ev.log "WebRTC answer sent to client"]) ∧
      sentFrames (handle_offer env st data).trace =
        [AnswerMessage.model_dump { type := "answer", sdp := env.answerSdp }]) := by
  constructor
  · intro h
    simp [handle_offer, h, sentFrames]
  · intro pc offer hpc hparse hsend
    by_cases hgs : pc.iceGatheringState = "complete"
    · refine ⟨?_, ⟨[], by simp, ?_⟩, ?_⟩ <;>
        simp [handle_offer, hpc, hparse, wait_for_ice_gathering, hgs, send_json, hsend,
          sentFrames]
    · by_cases hic : env.iceGatheringCompletes
      · refine ⟨?_, ⟨[], by simp, ?_⟩, ?_⟩ <;>
          simp [handle_offer, hpc, hparse, wait_for_ice_gathering, hgs, hic, send_json,
            hsend, sentFrames]
      · refine ⟨?_, ⟨[Ev.log "ICE gathering timeout"], by simp, ?_⟩, ?_⟩ <;>
          simp [handle_offer, hpc, hparse, wait_for_ice_gathering, hgs, hic, send_json,
            hsend, sentFrames]

/-- C3 witness: a concrete well-formed offer against a fresh session produces
exactly one answer frame carrying the local SDP and no exception. -/
theorem c3_witness :
    (handle_offer envOk stReady [("type", JVal.jstr "offer"), ("sdp", JVal.jstr "v=0")]).exc
        = none ∧
    sentFrames
        (handle_offer envOk stReady
          [("type", JVal.jstr "offer"), ("sdp", JVal.jstr "v=0")]).trace =
      [AnswerMessage.model_dump { type := "answer", sdp := "sdpANSWER" }] := by
  have h := (c3_offer_answer envOk stReady
      [("type", JVal.jstr "offer"), ("sdp", JVal.jstr "v=0")]).2
    pcFresh { type := "offer", sdp := "v=0" } rfl rfl rfl
  exact ⟨h.1, h.2.2⟩

/-- C5 counterexample: a message holding the string `"0"` under the
canonical `sdp_m_line_index` key and `7` under the camelCase `sdpMLineIndex`
key.  Pydantic coerces `"0"` to the (falsy) integer `0`, so the `or` chain
falls through — and the code consults the camelCase key FIRST: the value
passed to candidate parsing is `7`, whereas the order the claim states
(snake_case before camelCase) would pass `"0"`. -/
theorem c5_counterexample :
    IceCandidateMessage.parse dataC5 =
      Except.ok { candidate := some "candidate:1 1 udp 2130706431 10.0.0.1 54400 typ host",
                  sdp_m_line_index := some 0 } ∧
    parseCalls (handle_ice_candidate envOk stReady dataC5).trace =
      [("candidate:1 1 udp 2130706431 10.0.0.1 54400 typ host", JVal.jnull, JVal.jint 7)] ∧
    specOrderMerge (optIntToJ (some 0)) dataC5 "sdp_m_line_index" "sdpMLineIndex" =
      JVal.jstr "0" ∧
    JVal.jint 7 ≠ JVal.jstr "0" :=
  ⟨rfl, rfl, rfl, fun h => JVal.noConfusion h⟩

/-- C5 (amended): for every ice-candidate message with a non-null candidate
reaching the parse step, the `sdp_mid` and `sdp_m_line_index` values passed
to candidate parsing are merged in this order of preference: the parsed
(validated) message value first, then the original JSON under the camelCase
key, then the original JSON under the canonical snake_case key — each source
skipped when falsy (Python `or`), so a legitimate `0` or `""` falls through
to the next source. -/
theorem c5_amended (env : Env) (st : SessionState) (data : List (String × JVal))
    (pc : PCState) (msg : IceCandidateMessage) (candStr : String)
    (hpc : st.pc = some pc) (halive : iceConnDead pc = false)
    (hparse : IceCandidateMessage.parse data = Except.ok msg)
    (hcand : msg.candidate = some candStr) :
    parseCalls (handle_ice_candidate env st data).trace =
      [(candStr,
        codeOrderMerge (optStrToJ msg.sdp_mid) data "sdp_mid" "sdpMid",
        codeOrderMerge (optIntToJ msg.sdp_m_line_index) data
          "sdp_m_line_index" "sdpMLineIndex")] ∧
    (∀ parsed snakeKey camelKey, pyTruthy parsed = true →
      codeOrderMerge parsed data snakeKey camelKey = parsed) ∧
    (∀ parsed snakeKey camelKey, pyTruthy parsed = false →
      codeOrderMerge parsed data snakeKey camelKey =
        pyOr (jGet data camelKey) (jGet data snakeKey)) := by
  refine ⟨?_, fun parsed sk ck h => by simp [codeOrderMerge, pyOr, h],
    fun parsed sk ck h => by simp [codeOrderMerge, pyOr, h]⟩
  simp only [handle_ice_candidate, hpc, halive, Bool.false_eq_true, if_false, hparse, hcand]
  cases hp : parse_ice_candidate candStr
      (codeOrderMerge (optStrToJ msg.sdp_mid) data "sdp_mid" "sdpMid")
      (codeOrderMerge (optIntToJ msg.sdp_m_line_index) data
        "sdp_m_line_index" "sdpMLineIndex") <;>
    simp [hp, parseCalls]

/-- C5 amended witness: the counterexample message, concretely — the parse
call receives the camelCase value `7`. -/
theorem c5_amended_witness :
    parseCalls (handle_ice_candidate envOk stReady dataC5).trace =
      [("candidate:1 1 udp 2130706431 10.0.0.1 54400 typ host",
        codeOrderMerge (optStrToJ none) dataC5 "sdp_mid" "sdpMid",
        codeOrderMerge (optIntToJ (some 0)) dataC5 "sdp_m_line_index" "sdpMLineIndex")] :=
  (c5_amended envOk stReady dataC5 pcFresh
    { candidate := some "candidate:1 1 udp 2130706431 10.0.0.1 54400 typ host",
      sdp_m_line_index := some 0 }
    "candidate:1 1 udp 2130706431 10.0.0.1 54400 typ host" rfl rfl rfl rfl).1

/-- C6: for every `icecandidate` event with a non-null candidate, while the
channel accepts the send, exactly one ice-candidate frame carrying the
candidate's SDP fragment, `sdp_mid`, and `sdp_m_line_index` is written; a
null-candidate event writes nothing; and no frame the handler ever writes
carries a null candidate. -/
theorem c6_outbound_candidates (env : Env) (st : SessionState) :
    (∀ c : OutboundCandidate, env.sendResult st.sendCount = none →
      (on_icecandidate env st (some c)).2 =
        [Ev.sent (IceCandidateMessage.model_dump
          { candidate := some c.candidate, sdp_mid := c.sdpMid,
            sdp_m_line_index := c.sdpMLineIndex })]) ∧
    (on_icecandidate env st none).2 = [] ∧
    (∀ event p, Ev.sent p ∈ (on_icecandidate env st event).2 →
      jGet p "candidate" ≠ JVal.jnull) := by
  refine ⟨fun c h => ?_, rfl, fun event p hp => ?_⟩
  · simp [on_icecandidate, send_json, h]
  · cases event with
    | none => simp [on_icecandidate] at hp
    | some c =>
      unfold on_icecandidate send_json at hp
      cases hs : env.sendResult st.sendCount with
      | none =>
        rw [hs] at hp
        simp at hp
        subst hp
        simp [IceCandidateMessage.model_dump, jGet, lookupField, optStrToJ]
      | some e =>
        rw [hs] at hp
        simp at hp

/-- C6 witness: a concrete outbound candidate is forwarded as exactly one
ice-candidate frame with its three attributes. -/
theorem c6_witness :
    (on_icecandidate envOk stReady
      (some { candidate := "candidate:2 1 udp 1 10.0.0.2 3000 typ srflx",
              sdpMid := some "0", sdpMLineIndex := some 0 })).2 =
      [Ev.sent (IceCandidateMessage.model_dump
        { candidate := some "candidate:2 1 udp 1 10.0.0.2 3000 typ srflx",
          sdp_mid := some "0", sdp_m_line_index := some 0 })] ∧
    jGet (IceCandidateMessage.model_dump
      { candidate := some "candidate:2 1 udp 1 10.0.0.2 3000 typ srflx",
        sdp_mid := some "0", sdp_m_line_index := some 0 }) "candidate" ≠ JVal.jnull :=
  ⟨(c6_outbound_candidates envOk stReady).1
      { candidate := "candidate:2 1 udp 1 10.0.0.2 3000 typ srflx",
        sdpMid := some "0", sdpMLineIndex := some 0 } rfl,
   (c6_outbound_candidates envOk stReady).2.2
      (some { candidate := "candidate:2 1 udp 1 10.0.0.2 3000 typ srflx",
              sdpMid := some "0", sdpMLineIndex := some 0 })
      (IceCandidateMessage.model_dump
        { candidate := some "candidate:2 1 udp 1 10.0.0.2 3000 typ srflx",
          sdp_mid := some "0", sdp_m_line_index := some 0 })
      (List.mem_singleton.mpr rfl)⟩

end VisionStreamer
